import Mathlib

/-!
Verification of the cajon-player-web audio-trigger pipeline.

Shallow embedding of the repository's JavaScript sources:
  * `src/js/audio-manager.js`  — `AudioManager` (SoundBank + PlaybackEngine)
  * `src/js/input-handler.js`  — `InputHandler` (InputDispatcher)
  * `src/js/trigger-zones.js`  — `TriggerZoneManager` (ZoneRegistry)
  * `src/js/app.js`            — key-recording flow

The single-threaded event-loop execution model is rendered as explicit state
passing; the externally-settled `AudioContext.resume()` promise is an oracle
(`resumeScript`), and observable operations (priming node start, resume calls,
visual flashes, playback-unit starts, emitted signals) are accumulated in a
trace of `Action`s.
-/

namespace Cajon

/-- The states of the underlying `AudioContext` as observed by the code. -/
inductive CtxState where
  | suspended
  | interrupted
  | running
  | closed
deriving DecidableEq, Repr

/-- A zone descriptor as in `zone-config.js` (`volume` is optional and absent
from the shipped configuration, defaulting to 1.0 at use sites). -/
structure Zone where
  id : String
  name : String
  soundFile : String
  keyboardKey : Option String
  volume : Option ℚ
deriving DecidableEq, Repr

/-- The one-shot playback unit created by `playSound`: an
`AudioBufferSourceNode` bound to a decoded buffer.  `gainApplied = none`
records that no gain node was inserted between the source and the
destination. -/
structure PlaybackUnit where
  buffer : String
  gainApplied : Option ℚ
deriving DecidableEq, Repr

/-- Observable operations issued by the embedded code, in issue order. -/
inductive Action where
  | primeStart
  | resumeCall
  | removeListeners
  | visualFlash (zoneId : String)
  | soundStart (unit : PlaybackUnit)
  | emitLoading
  | emitProgress (loaded total : ℕ)
  | emitLoaded
  | emitError
deriving DecidableEq, Repr

/-- The five gesture event names registered by `_setupGestureUnlock`. -/
def gestureUnlockEvents : List String :=
  ["pointerdown", "touchstart", "touchend", "mousedown", "keydown"]

/-- The mutable fields of `AudioManager`.  `audioBuffers`, `loadedSounds` and
`loadErrors` model the key sets of the corresponding `Map`/`Set` objects;
`unlockPromisePending` models `_unlockPromise !== null`; `gestureListeners`
records the window listeners currently attached (event name, capture flag). -/
structure AMState where
  sounds : List String
  audioBuffers : List String
  loadedSounds : List String
  loadErrors : List String
  isContextUnlocked : Bool
  unlockPromisePending : Bool
  autoUnlockAttached : Bool
  gestureListeners : List (String × Bool)
  ctxState : CtxState
deriving DecidableEq, Repr

/-- `_setupGestureUnlock`: attach the five gesture listeners on the window
with `capture: true` unless already attached. -/
def setupGestureUnlock (am : AMState) : AMState :=
  if am.autoUnlockAttached then am
  else
    { am with
      gestureListeners := gestureUnlockEvents.map (fun e => (e, true)),
      autoUnlockAttached := true }

/-- `AudioManager` constructor: fresh state (context created in
`initialCtxState` by `_initAudioContext`), then `_setupGestureUnlock`. -/
def mkAudioManager (sounds : List String) (initialCtxState : CtxState) : AMState :=
  setupGestureUnlock
    { sounds := sounds
      audioBuffers := []
      loadedSounds := []
      loadErrors := []
      isContextUnlocked := false
      unlockPromisePending := false
      autoUnlockAttached := false
      gestureListeners := []
      ctxState := initialCtxState }

/-- `_removeGestureUnlockListeners`: detach all gesture listeners when
attached; a no-op otherwise. -/
def removeGestureUnlockListeners (am : AMState) : AMState × List Action :=
  if am.autoUnlockAttached then
    ({ am with autoUnlockAttached := false, gestureListeners := [] },
      [Action.removeListeners])
  else (am, [])

instance : DecidableEq (Except String Unit) := fun a b =>
  match a, b with
  | Except.ok (), Except.ok () => isTrue rfl
  | Except.error e, Except.error f =>
      if h : e = f then isTrue (by rw [h]) else isFalse (fun hh => h (by cases hh; rfl))
  | Except.ok (), Except.error _ => isFalse (fun h => by cases h)
  | Except.error _, Except.ok () => isFalse (fun h => by cases h)

/-- Control outcome of the synchronous prefix of `unlockAudioContext`:
either the call returned without awaiting, or it is suspended on
`await this._unlockPromise`. -/
inductive UnlockEntryResult where
  | returned (r : Except String Unit)
  | awaiting
deriving DecidableEq, Repr

/-- The synchronous prefix of `unlockAudioContext(options)`, up to (and
excluding) the `await this._unlockPromise` suspension point.  Returns
immediately when the context is already unlocked; when a resume is needed it
primes the pipeline for gesture calls, issues `audioContext.resume()` only if
no resume is already in flight, and suspends.  When no resume is needed it
marks the context unlocked and removes the gesture listeners. -/
def unlockAudioContextEntry (am : AMState) (fromGesture : Bool) :
    AMState × List Action × UnlockEntryResult :=
  if am.isContextUnlocked then (am, [], UnlockEntryResult.returned (Except.ok ()))
  else
    if am.ctxState = CtxState.suspended ∨ am.ctxState = CtxState.interrupted then
      let pre : List Action := if fromGesture then [Action.primeStart] else []
      if am.unlockPromisePending then (am, pre, UnlockEntryResult.awaiting)
      else
        ({ am with unlockPromisePending := true },
          pre ++ [Action.resumeCall], UnlockEntryResult.awaiting)
    else
      let am1 := { am with isContextUnlocked := true }
      let (am2, acts) := removeGestureUnlockListeners am1
      (am2, acts, UnlockEntryResult.returned (Except.ok ()))

/-- The continuation of `unlockAudioContext` after the awaited resume
promise settles.  `outcome = none` models a rejected resume (the catch block
clears `_unlockPromise` and rethrows); `outcome = some s` models fulfilment
with the context subsequently observed in state `s`:  `_unlockPromise` is
cleared, `isContextUnlocked` becomes true exactly when the context reports
`running` (the needs-resume path), and on unlock the gesture listeners are
removed. -/
def unlockAudioContextSettle (am : AMState) (outcome : Option CtxState) :
    AMState × List Action × Except String Unit :=
  match outcome with
  | none =>
      ({ am with unlockPromisePending := false }, [],
        Except.error "Failed to resume audio context")
  | some s =>
      let am1 := { am with unlockPromisePending := false, ctxState := s }
      if s = CtxState.running then
        let am2 := { am1 with isContextUnlocked := true }
        let (am3, acts) := removeGestureUnlockListeners am2
        (am3, acts, Except.ok ())
      else (am1, [], Except.ok ())

/-- The world threading the `AudioManager` state together with the external
oracle for resume settlements: the `n`-th issued resume settles as
`resumeScript n` (`none` = rejected). -/
structure World where
  am : AMState
  resumeScript : ℕ → Option CtxState
  nResume : ℕ

/-- Output of a state-transforming call that can reject. -/
structure CallOut where
  w : World
  trace : List Action
  result : Except String Unit

/-- A full, non-overlapped run of `unlockAudioContext(options)`: the
synchronous entry followed, when it suspends, by the settlement of the
awaited resume as scripted by the oracle. -/
def unlockAudioContext (w : World) (fromGesture : Bool) : CallOut :=
  match unlockAudioContextEntry w.am fromGesture with
  | (am1, acts, UnlockEntryResult.returned r) => ⟨{ w with am := am1 }, acts, r⟩
  | (am1, acts, UnlockEntryResult.awaiting) =>
      let (am2, acts2, r) := unlockAudioContextSettle am1 (w.resumeScript w.nResume)
      ⟨{ w with am := am2, nResume := w.nResume + 1 }, acts ++ acts2, r⟩

/-- `playSound(soundPath)`: rejects when the path has no decoded buffer or is
not marked loaded; otherwise runs the self-healing unlock when the context is
not unlocked or has reverted to suspended (propagating its rejection), then
creates a fresh `AudioBufferSourceNode` on the shared buffer, connects it
directly to the destination — no gain node, the function takes no volume
parameter — and starts it at time 0. -/
def playSound (w : World) (soundPath : String) : CallOut :=
  if ¬ w.am.audioBuffers.contains soundPath then
    ⟨w, [], Except.error ("Sound file not found: " ++ soundPath)⟩
  else if ¬ w.am.loadedSounds.contains soundPath then
    ⟨w, [], Except.error ("Sound not yet loaded: " ++ soundPath)⟩
  else if ¬ w.am.isContextUnlocked ∨ w.am.ctxState = CtxState.suspended then
    match unlockAudioContext w false with
    | CallOut.mk w1 tr (Except.error e) => ⟨w1, tr, Except.error e⟩
    | CallOut.mk w1 tr (Except.ok _) =>
        ⟨w1, tr ++ [Action.soundStart ⟨soundPath, none⟩], Except.ok ()⟩
  else ⟨w, [Action.soundStart ⟨soundPath, none⟩], Except.ok ()⟩

/-- `_handleGestureUnlockEvent`: when the context is already unlocked the
listeners are removed and nothing else happens; otherwise
`unlockAudioContext({ fromGesture: true })` runs with any rejection caught. -/
def handleGestureUnlockEvent (w : World) : World × List Action :=
  if w.am.isContextUnlocked then
    let (am1, acts) := removeGestureUnlockListeners w.am
    ({ w with am := am1 }, acts)
  else
    let out := unlockAudioContext w true
    (out.w, out.trace)

/-- Delivery of a window event to the gesture-unlock machinery: the handler
runs only while a capture-phase listener for that event name is attached. -/
def dispatchWindowGesture (w : World) (eventName : String) : World × List Action :=
  if w.am.gestureListeners.contains (eventName, true) then handleGestureUnlockEvent w
  else (w, [])

/-- `_loadSound(soundPath)` under a fetch/decode oracle: success stores the
buffer, adds the path to the loaded set and emits `progress` with the new
loaded count; failure records the error and emits `error` — no `progress`
and no rethrow (deliberate partial-functionality policy). -/
def loadSound (w : World) (ok : Bool) (soundPath : String) : World × List Action :=
  if ok then
    let am := w.am
    let buffers := if am.audioBuffers.contains soundPath then am.audioBuffers
      else am.audioBuffers ++ [soundPath]
    let loaded := if am.loadedSounds.contains soundPath then am.loadedSounds
      else am.loadedSounds ++ [soundPath]
    let am1 := { am with audioBuffers := buffers, loadedSounds := loaded }
    ({ w with am := am1 }, [Action.emitProgress loaded.length am.sounds.length])
  else
    let am := w.am
    let errs := if am.loadErrors.contains soundPath then am.loadErrors
      else am.loadErrors ++ [soundPath]
    ({ w with am := { am with loadErrors := errs } }, [Action.emitError])

/-- `preloadAll()`: emits `loading`, settles every configured path (the
all-settle of the per-path loads, sequentialized by the event loop), and
emits the final `loaded` completion signal. -/
def preloadAll (w : World) (ok : String → Bool) : World × List Action :=
  let settled := w.am.sounds.foldl
    (fun (acc : World × List Action) p =>
      let (w1, acts) := loadSound acc.1 (ok p) p
      (w1, acc.2 ++ acts))
    (w, [])
  (settled.1, Action.emitLoading :: settled.2 ++ [Action.emitLoaded])

/-- ASCII lowercasing — the `toLowerCase()` the JS sources apply to key
names (which are basic-latin), written as a structural map over the string's
characters. -/
def toLowerStr (s : String) : String := ⟨s.data.map Char.toLower⟩

/-- Association-list lookup with the first-match semantics of a JS `Map`
whose keys are unique. -/
def assocGet : List (String × Zone) → String → Option Zone
  | [], _ => none
  | (k, v) :: rest, key => if k = key then some v else assocGet rest key

/-- `Map.set` semantics: update in place when the key exists, append
otherwise. -/
def assocSet : List (String × Zone) → String → Zone → List (String × Zone)
  | [], key, v => [(key, v)]
  | (k, w) :: rest, key, v =>
      if k = key then (key, v) :: rest else (k, w) :: assocSet rest key v

/-- The `TriggerZoneManager` fields the key path depends on: the configured
zone list and the `zoneByKey` map. -/
structure ZoneManagerState where
  zones : List Zone
  zoneByKey : List (String × Zone)
deriving DecidableEq, Repr

/-- `TriggerZoneManager` constructor: builds `zoneByKey` from each zone's
lower-cased `keyboardKey`. -/
def mkZoneManager (zones : List Zone) : ZoneManagerState :=
  { zones := zones
    zoneByKey := zones.foldl
      (fun m z =>
        match z.keyboardKey with
        | some k => assocSet m (toLowerStr k) z
        | none => m) [] }

/-- `getZoneByKey(key)`: case-insensitive lookup in `zoneByKey`. -/
def getZoneByKey (zm : ZoneManagerState) (key : String) : Option Zone :=
  assocGet zm.zoneByKey (toLowerStr key)

/-- Modelled from the spec: `TriggerZoneManager.updateZoneKey(zoneId, newKey)`
is invoked by the key-recording flow (`app.js`, `_startKeyRecording`) but its
definition is absent from the sources; modelled from spec §4.3 `rebindKey`:
remove the zone's old key(s) from the key index, remove any existing binding
for the new key, then install the new binding for the zone. -/
def updateZoneKey (zm : ZoneManagerState) (zoneId : String) (newKey : String) :
    ZoneManagerState :=
  match zm.zones.find? (fun z => z.id = zoneId) with
  | none => zm
  | some z =>
      { zm with
        zoneByKey :=
          ((zm.zoneByKey.filter (fun kv => kv.2.id ≠ zoneId)).filter
              (fun kv => kv.1 ≠ toLowerStr newKey)) ++ [(toLowerStr newKey, z)] }

/-- The fields of a keyboard event consulted by `handleKeydown`. -/
structure KeyEvent where
  key : String
  code : String
  ctrlKey : Bool
  altKey : Bool
  metaKey : Bool
  shiftKey : Bool
deriving DecidableEq, Repr

/-- The zone-resolution portion of `handleKeydown`: gated on `enabled` and
`hasFocus`; a physical Shift key (by `event.code`) is looked up under its own
key name regardless of modifier flags; any other key is dropped when a
modifier flag is set, and otherwise looked up by its lower-cased `event.key`.
Returns the zone the event triggers, or `none` when the event is ignored. -/
def handleKeydownResolve (enabled hasFocus : Bool) (zm : ZoneManagerState)
    (ev : KeyEvent) : Option Zone :=
  if ¬ enabled ∨ ¬ hasFocus then none
  else if ev.code = "ShiftLeft" ∨ ev.code = "ShiftRight" then
    getZoneByKey zm (if ev.code = "ShiftLeft" then "leftshift" else "rightshift")
  else if ev.ctrlKey ∨ ev.altKey ∨ ev.metaKey ∨ ev.shiftKey then none
  else getZoneByKey zm (toLowerStr ev.key)

/-- The dispatcher state of `InputHandler`. -/
structure DispatcherState where
  enabled : Bool
  hasFocus : Bool
  audioUnlocked : Bool
deriving DecidableEq, Repr

/-- Output of a dispatcher-level step: handler exceptions are all caught, so
there is no error channel. -/
structure StepOut where
  d : DispatcherState
  w : World
  trace : List Action

/-- `_triggerZone(zone, volume)`: activates the visual feedback first, then
resolves the effective volume (argument, else `zone.volume`, else 1.0) and
awaits `playSound(zone.soundFile, finalVolume)` — whose parameter list has
only the path — with any rejection caught and swallowed. -/
def triggerZone (w : World) (zone : Zone) (volume : Option ℚ) : World × List Action :=
  let _finalVolume : ℚ :=
    match volume with
    | some v => v
    | none => match zone.volume with | some bv => bv | none => 1
  let played := playSound w zone.soundFile
  (played.w, Action.visualFlash zone.id :: played.trace)

/-- `handlePointerDown` for a press that hit-tested to zone `z` on its own
zone element, with `_calculateVolumeFromClickPosition` having produced `vol`:
after the enablement gate, when `audioUnlocked` is still false the dispatcher
awaits `unlockAudioContext({ fromGesture: true })` and sets `audioUnlocked`
whether it fulfilled or rejected; then `_triggerZone(zone, volume)` runs. -/
def handlePointerDownOnZone (d : DispatcherState) (w : World) (z : Zone) (vol : ℚ) :
    StepOut :=
  if ¬ d.enabled then ⟨d, w, []⟩
  else
    let unlocked :=
      if ¬ d.audioUnlocked then
        let out := unlockAudioContext w true
        (⟨{ d with audioUnlocked := true }, out.w, out.trace⟩ : StepOut)
      else ⟨d, w, []⟩
    let (w2, acts2) := triggerZone unlocked.w z (some vol)
    ⟨unlocked.d, w2, unlocked.trace ++ acts2⟩

/-- `n` consecutive pointer trigger events on the same zone, processed to
completion one after another by the event loop. -/
def runTriggers (d : DispatcherState) (w : World) (z : Zone) (vol : ℚ) :
    ℕ → StepOut
  | 0 => ⟨d, w, []⟩
  | n + 1 =>
      let s1 := handlePointerDownOnZone d w z vol
      let rest := runTriggers s1.d s1.w z vol n
      ⟨rest.d, rest.w, s1.trace ++ rest.trace⟩

/-- The synchronous entry phases of a batch of overlapping
`unlockAudioContext` calls, all issued before the shared resume promise
settles; returns the state, the combined trace, and the number of calls left
suspended at the await. -/
def overlapUnlockEntries (am : AMState) : List Bool → AMState × List Action × ℕ
  | [] => (am, [], 0)
  | g :: gs =>
      match unlockAudioContextEntry am g with
      | (am1, acts, UnlockEntryResult.awaiting) =>
          let (am2, acts2, n) := overlapUnlockEntries am1 gs
          (am2, acts ++ acts2, n + 1)
      | (am1, acts, UnlockEntryResult.returned _) =>
          let (am2, acts2, n) := overlapUnlockEntries am1 gs
          (am2, acts ++ acts2, n)

/-- Settlement of the shared resume promise delivered to each of the `n`
suspended continuations in turn. -/
def overlapUnlockSettles (am : AMState) (outcome : Option CtxState) :
    ℕ → AMState × List Action
  | 0 => (am, [])
  | n + 1 =>
      let (am1, acts, _r) := unlockAudioContextSettle am outcome
      let (am2, acts2) := overlapUnlockSettles am1 outcome n
      (am2, acts ++ acts2)

/-- A batch of overlapping `unlockAudioContext` calls sharing one in-flight
resume: all entries run, then the single settlement is delivered to every
waiter. -/
def overlappedUnlocks (am : AMState) (gestures : List Bool)
    (outcome : Option CtxState) : AMState × List Action :=
  let (am1, acts, n) := overlapUnlockEntries am gestures
  let (am2, acts2) := overlapUnlockSettles am1 outcome n
  (am2, acts ++ acts2)

open Classical in
/-- `_calculateVolumeFromClickPosition` over idealized reals (the JS source
computes in floating point): click position relative to the zone element's
bounding rectangle, Euclidean distance to the rectangle's center normalized
by the center-to-corner distance and clamped at 1, then
`volume = 0 + 1 * (1 - normalizedDistance)` scaled by the zone's base
volume (default 1.0); a degenerate rectangle returns the base volume
unchanged. -/
noncomputable def calculateVolumeFromClickPosition
    (clientX clientY rectLeft rectTop rectWidth rectHeight : ℝ)
    (zoneVolume : Option ℝ) : ℝ :=
  let clickX := clientX - rectLeft
  let clickY := clientY - rectTop
  let centerX := rectWidth / 2
  let centerY := rectHeight / 2
  let dx := clickX - centerX
  let dy := clickY - centerY
  let distance := Real.sqrt (dx * dx + dy * dy)
  let maxDistance := Real.sqrt (centerX * centerX + centerY * centerY)
  if maxDistance = 0 then zoneVolume.getD 1
  else
    let normalizedDistance := min (distance / maxDistance) 1
    let volume := 0 + 1 * (1 - normalizedDistance)
    let baseVolume := zoneVolume.getD 1
    volume * baseVolume

/-- Recognizer for the incremental progress signal. -/
def isProgressSignal : Action → Bool
  | Action.emitProgress _ _ => true
  | _ => false

/-! Concrete fixtures, taken from `zone-config.js`. -/

/-- The `kick-center` zone of the shipped configuration. -/
def kickCenterZone : Zone :=
  { id := "kick-center"
    name := "Kick Center"
    soundFile := "src/assets/sounds/cajon-off-kick-4.mp3"
    keyboardKey := some "q"
    volume := none }

/-- The `snare-left` zone of the shipped configuration. -/
def snareLeftZone : Zone :=
  { id := "snare-left"
    name := "Snare Left"
    soundFile := "src/assets/sounds/cajon-off-snare-1.mp3"
    keyboardKey := some "w"
    volume := none }

/-- A zone bound to an asset path that never loaded. -/
def brokenZone : Zone :=
  { id := "broken"
    name := "Broken"
    soundFile := "src/assets/sounds/missing.mp3"
    keyboardKey := some "b"
    volume := none }

/-- A zone bound to the left Shift key. -/
def shiftZone : Zone :=
  { id := "shift-zone"
    name := "Shift Zone"
    soundFile := "src/assets/sounds/cajon-off-kick-4.mp3"
    keyboardKey := some "leftshift"
    volume := none }

/-- The two demo asset paths. -/
def demoSounds : List String := [kickCenterZone.soundFile, snareLeftZone.soundFile]

/-- An `AudioManager` shortly after construction with both demo assets
decoded: context still suspended and locked, gesture listeners attached. -/
def lockedAM : AMState :=
  { mkAudioManager demoSounds CtxState.suspended with
    audioBuffers := demoSounds, loadedSounds := demoSounds }

/-- An `AudioManager` in the steady state after a successful unlock: context
running and unlocked, gesture listeners removed, both demo assets decoded. -/
def readyAM : AMState :=
  { lockedAM with
    isContextUnlocked := true
    autoUnlockAttached := false
    gestureListeners := []
    ctxState := CtxState.running }

/-- Oracle under which every resume attempt is rejected. -/
def alwaysFail : ℕ → Option CtxState := fun _ => none

/-- Oracle under which every resume attempt fulfils with a running context. -/
def alwaysRun : ℕ → Option CtxState := fun _ => some CtxState.running

/-- Locked world with rejecting resumes. -/
def lockedWorldFail : World := ⟨lockedAM, alwaysFail, 0⟩

/-- Locked world with succeeding resumes. -/
def lockedWorldRun : World := ⟨lockedAM, alwaysRun, 0⟩

/-- Steady-state world after unlock. -/
def readyWorld : World := ⟨readyAM, alwaysRun, 0⟩

/-- Dispatcher before any trigger. -/
def freshDispatcher : DispatcherState := ⟨true, true, false⟩

/-- Dispatcher after its first unlock attempt. -/
def steadyDispatcher : DispatcherState := ⟨true, true, true⟩

/-- Registry over the two demo zones. -/
def demoZM : ZoneManagerState := mkZoneManager [kickCenterZone, snareLeftZone]

/-! Helper lemmas. -/

lemma removeGestureUnlockListeners_trace (am : AMState) :
    (removeGestureUnlockListeners am).2 = [] ∨
      (removeGestureUnlockListeners am).2 = [Action.removeListeners] := by
  unfold removeGestureUnlockListeners
  split
  · exact Or.inr rfl
  · exact Or.inl rfl

lemma removeGestureUnlockListeners_preserves (am : AMState) :
    (removeGestureUnlockListeners am).1.sounds = am.sounds ∧
    (removeGestureUnlockListeners am).1.audioBuffers = am.audioBuffers ∧
    (removeGestureUnlockListeners am).1.loadedSounds = am.loadedSounds ∧
    (removeGestureUnlockListeners am).1.isContextUnlocked = am.isContextUnlocked ∧
    (removeGestureUnlockListeners am).1.unlockPromisePending = am.unlockPromisePending ∧
    (removeGestureUnlockListeners am).1.ctxState = am.ctxState := by
  unfold removeGestureUnlockListeners
  split <;> simp

lemma unlockAudioContextSettle_trace (am : AMState) (o : Option CtxState) :
    (unlockAudioContextSettle am o).2.1 = [] ∨
      (unlockAudioContextSettle am o).2.1 = [Action.removeListeners] := by
  unfold unlockAudioContextSettle
  match o with
  | none => exact Or.inl rfl
  | some s =>
      simp only
      split
      · exact removeGestureUnlockListeners_trace _
      · exact Or.inl rfl

lemma count_resume_settle (am : AMState) (o : Option CtxState) :
    (unlockAudioContextSettle am o).2.1.count Action.resumeCall = 0 := by
  rcases unlockAudioContextSettle_trace am o with h | h <;> simp [h]

lemma unlockAudioContextEntry_trace (am : AMState) (g : Bool) :
    ∀ a ∈ (unlockAudioContextEntry am g).2.1,
      a = Action.primeStart ∨ a = Action.resumeCall ∨ a = Action.removeListeners := by
  intro a ha
  by_cases h1 : am.isContextUnlocked = true
  · simp [unlockAudioContextEntry, h1] at ha
  · by_cases h2 : am.ctxState = CtxState.suspended ∨ am.ctxState = CtxState.interrupted
    · by_cases h3 : am.unlockPromisePending = true
      · cases g <;> simp [unlockAudioContextEntry, h1, h2, h3] at ha
        all_goals tauto
      · cases g <;> simp [unlockAudioContextEntry, h1, h2, h3] at ha
        all_goals tauto
    · rcases removeGestureUnlockListeners_trace { am with isContextUnlocked := true }
        with h | h <;>
        simp [unlockAudioContextEntry, h1, h2, h] at ha
      all_goals tauto

lemma unlockAudioContext_trace (w : World) (g : Bool) :
    ∀ a ∈ (unlockAudioContext w g).trace,
      a = Action.primeStart ∨ a = Action.resumeCall ∨ a = Action.removeListeners := by
  intro a ha
  unfold unlockAudioContext at ha
  split at ha
  next heq =>
    have := unlockAudioContextEntry_trace w.am g
    rw [heq] at this
    exact this a ha
  next am1 acts heq =>
    simp only [List.mem_append] at ha
    rcases ha with ha | ha
    · have := unlockAudioContextEntry_trace w.am g
      rw [heq] at this
      exact this a ha
    · rcases unlockAudioContextSettle_trace am1 (w.resumeScript w.nResume) with h | h <;>
        simp_all

lemma playSound_trace_no_flash (w : World) (p : String) :
    ∀ a ∈ (playSound w p).trace, ∀ zid, a ≠ Action.visualFlash zid := by
  have htr := unlockAudioContext_trace w false
  intro a ha zid
  unfold playSound at ha
  split at ha
  · simp at ha
  · split at ha
    · simp at ha
    · split at ha
      · split at ha
        next w1 tr e heq =>
          rw [heq] at htr
          rcases htr a ha with h | h | h <;> simp [h]
        next w1 tr u heq =>
          rw [heq] at htr
          simp only [List.mem_append] at ha
          rcases ha with ha | ha
          · rcases htr a ha with h | h | h <;> simp [h]
          · simp_all
      · simp at ha
        simp [ha]

lemma unlockAudioContextEntry_issue (am : AMState) (g : Bool)
    (hu : am.isContextUnlocked = false) (hc : am.ctxState = CtxState.suspended)
    (hp : am.unlockPromisePending = false) :
    unlockAudioContextEntry am g =
      ({ am with unlockPromisePending := true },
        (if g then [Action.primeStart] else []) ++ [Action.resumeCall],
        UnlockEntryResult.awaiting) := by
  unfold unlockAudioContextEntry
  simp [hu, hc, hp]

lemma unlock_run (w : World) (g : Bool)
    (hu : w.am.isContextUnlocked = false) (hc : w.am.ctxState = CtxState.suspended)
    (hp : w.am.unlockPromisePending = false) :
    unlockAudioContext w g =
      ⟨{ w with
          am := (unlockAudioContextSettle { w.am with unlockPromisePending := true }
            (w.resumeScript w.nResume)).1,
          nResume := w.nResume + 1 },
        ((if g then [Action.primeStart] else []) ++ [Action.resumeCall]) ++
          (unlockAudioContextSettle { w.am with unlockPromisePending := true }
            (w.resumeScript w.nResume)).2.1,
        (unlockAudioContextSettle { w.am with unlockPromisePending := true }
          (w.resumeScript w.nResume)).2.2⟩ := by
  unfold unlockAudioContext
  rw [unlockAudioContextEntry_issue w.am g hu hc hp]

lemma unlockAudioContextEntry_preserves (am : AMState) (g : Bool) :
    (unlockAudioContextEntry am g).1.audioBuffers = am.audioBuffers ∧
    (unlockAudioContextEntry am g).1.loadedSounds = am.loadedSounds ∧
    (unlockAudioContextEntry am g).1.sounds = am.sounds := by
  by_cases h1 : am.isContextUnlocked = true
  · simp [unlockAudioContextEntry, h1]
  · by_cases h2 : am.ctxState = CtxState.suspended ∨ am.ctxState = CtxState.interrupted
    · by_cases h3 : am.unlockPromisePending = true
      · cases g <;> simp [unlockAudioContextEntry, h1, h2, h3]
      · cases g <;> simp [unlockAudioContextEntry, h1, h2, h3]
    · have h := removeGestureUnlockListeners_preserves { am with isContextUnlocked := true }
      simp [unlockAudioContextEntry, h1, h2, h.1, h.2.1, h.2.2.1]

lemma unlockAudioContextSettle_preserves (am : AMState) (o : Option CtxState) :
    (unlockAudioContextSettle am o).1.audioBuffers = am.audioBuffers ∧
    (unlockAudioContextSettle am o).1.loadedSounds = am.loadedSounds ∧
    (unlockAudioContextSettle am o).1.sounds = am.sounds := by
  rcases o with _ | s
  · simp [unlockAudioContextSettle]
  · by_cases hs : s = CtxState.running
    · subst hs
      have h := removeGestureUnlockListeners_preserves
        { am with
            unlockPromisePending := false
            ctxState := CtxState.running
            isContextUnlocked := true }
      simp [unlockAudioContextSettle, h.1, h.2.1, h.2.2.1]
    · simp [unlockAudioContextSettle, hs]

lemma unlock_preserves (w : World) (g : Bool) :
    (unlockAudioContext w g).w.am.audioBuffers = w.am.audioBuffers ∧
    (unlockAudioContext w g).w.am.loadedSounds = w.am.loadedSounds ∧
    (unlockAudioContext w g).w.resumeScript = w.resumeScript := by
  have hE1 := unlockAudioContextEntry_preserves w.am g
  unfold unlockAudioContext
  rcases hE : unlockAudioContextEntry w.am g with ⟨am1, acts, r⟩
  rw [hE] at hE1
  cases r with
  | returned res => exact ⟨hE1.1, hE1.2.1, rfl⟩
  | awaiting =>
      have hS := unlockAudioContextSettle_preserves am1 (w.resumeScript w.nResume)
      exact ⟨hS.1.trans hE1.1, hS.2.1.trans hE1.2.1, rfl⟩

lemma settle_running_fields (am : AMState) :
    (unlockAudioContextSettle am (some CtxState.running)).1.isContextUnlocked = true ∧
    (unlockAudioContextSettle am (some CtxState.running)).1.ctxState = CtxState.running ∧
    (unlockAudioContextSettle am (some CtxState.running)).1.unlockPromisePending = false ∧
    (unlockAudioContextSettle am (some CtxState.running)).2.2 = Except.ok () := by
  have h := removeGestureUnlockListeners_preserves
    { am with
        unlockPromisePending := false
        ctxState := CtxState.running
        isContextUnlocked := true }
  simp [unlockAudioContextSettle, h.2.2.2.1, h.2.2.2.2.1, h.2.2.2.2.2]

lemma triggerZone_steady (w : World) (z : Zone) (vol : Option ℚ)
    (hb : w.am.audioBuffers.contains z.soundFile = true)
    (hl : w.am.loadedSounds.contains z.soundFile = true)
    (hu : w.am.isContextUnlocked = true)
    (hc : w.am.ctxState = CtxState.running) :
    triggerZone w z vol =
      (w, [Action.visualFlash z.id, Action.soundStart ⟨z.soundFile, none⟩]) := by
  have hb' : z.soundFile ∈ w.am.audioBuffers := by simpa using hb
  have hl' : z.soundFile ∈ w.am.loadedSounds := by simpa using hl
  unfold triggerZone playSound
  simp [hb', hl', hu, hc]

end Cajon

namespace Cajon

/-- C1 (counterexample): the gain requested by the dispatcher does not reach
the playback unit.  In the steady state, a press on the loaded `kick-center`
zone with resolved volume 1/2 starts a playback unit whose `gainApplied` is
`none` (source connected directly to the destination); the trace is
byte-for-byte the same as with resolved volume 1/4, and no unit carrying the
requested gain is ever started. -/
theorem c1_gain_counterexample :
    (handlePointerDownOnZone steadyDispatcher readyWorld kickCenterZone (1/2)).trace =
      [Action.visualFlash "kick-center",
        Action.soundStart ⟨"src/assets/sounds/cajon-off-kick-4.mp3", none⟩] ∧
    (handlePointerDownOnZone steadyDispatcher readyWorld kickCenterZone (1/2)).trace =
      (handlePointerDownOnZone steadyDispatcher readyWorld kickCenterZone (1/4)).trace ∧
    Action.soundStart ⟨"src/assets/sounds/cajon-off-kick-4.mp3", some (1/2)⟩ ∉
      (handlePointerDownOnZone steadyDispatcher readyWorld kickCenterZone (1/2)).trace := by
  refine ⟨rfl, rfl, ?_⟩
  decide

/-- C1 (amended): for every trigger of a loaded sound on an unlocked running
context, `playSound` creates one playback unit bound to the shared decoded
buffer, connects it directly to the output and starts it — but with no gain
node: `playSound` accepts only the path, so the volume resolved by the
`InputHandler` (position-based multiplier times base volume) is passed as a
dead argument and never applied. -/
theorem c1_gain_not_applied (w : World) (z : Zone) (vol : Option ℚ)
    (hb : w.am.audioBuffers.contains z.soundFile = true)
    (hl : w.am.loadedSounds.contains z.soundFile = true)
    (hu : w.am.isContextUnlocked = true)
    (hc : w.am.ctxState = CtxState.running) :
    (triggerZone w z vol).2 =
      [Action.visualFlash z.id, Action.soundStart ⟨z.soundFile, none⟩] := by
  rw [triggerZone_steady w z vol hb hl hu hc]

/-- Witness for C1 (amended) at the demo fixture. -/
theorem c1_gain_not_applied_witness :
    (triggerZone readyWorld kickCenterZone (some (1/2))).2 =
      [Action.visualFlash "kick-center",
        Action.soundStart ⟨"src/assets/sounds/cajon-off-kick-4.mp3", none⟩] :=
  c1_gain_not_applied readyWorld kickCenterZone (some (1/2)) (by decide) (by decide)
    (by decide) (by decide)

lemma count_resume_flash_start (zid : String) (u : PlaybackUnit) :
    ([Action.visualFlash zid, Action.soundStart u] : List Action).count
      Action.resumeCall = 0 := rfl

lemma handlePointerDown_steady (d : DispatcherState) (w : World) (z : Zone) (vol : ℚ)
    (hd : d.audioUnlocked = true)
    (hb : w.am.audioBuffers.contains z.soundFile = true)
    (hl : w.am.loadedSounds.contains z.soundFile = true)
    (hu : w.am.isContextUnlocked = true)
    (hc : w.am.ctxState = CtxState.running)
    (he : d.enabled = true) :
    handlePointerDownOnZone d w z vol =
      ⟨d, w, [Action.visualFlash z.id, Action.soundStart ⟨z.soundFile, none⟩]⟩ := by
  unfold handlePointerDownOnZone
  simp [he, hd, triggerZone_steady w z (some vol) hb hl hu hc]

lemma runTriggers_steady_count (d : DispatcherState) (w : World) (z : Zone) (vol : ℚ)
    (n : ℕ)
    (hd : d.audioUnlocked = true)
    (hb : w.am.audioBuffers.contains z.soundFile = true)
    (hl : w.am.loadedSounds.contains z.soundFile = true)
    (hu : w.am.isContextUnlocked = true)
    (hc : w.am.ctxState = CtxState.running)
    (he : d.enabled = true) :
    (runTriggers d w z vol n).trace.count Action.resumeCall = 0 := by
  induction n with
  | zero => simp [runTriggers]
  | succ k ih =>
      simp only [runTriggers, handlePointerDown_steady d w z vol hd hb hl hu hc he]
      simp [List.count_append, ih, count_resume_flash_start]

/-- C2 (counterexample): two consecutive pointer triggers on a loaded zone,
starting from a locked suspended context whose resume attempts are all
rejected, invoke the underlying resume operation three times: once from the
dispatcher's unlock step and once per trigger from `playSound`'s
self-healing re-unlock, refuting "at most once in total even if the first
unlock attempt failed". -/
theorem c2_resume_thrice_counterexample :
    ¬ ((runTriggers freshDispatcher lockedWorldFail kickCenterZone 1 2).trace.count
        Action.resumeCall ≤ 1) := by
  decide

/-- C2 (amended): across `n + 1` consecutive trigger events on an
initially-locked suspended context whose first resume attempt fulfils with a
running context, the resume operation is invoked exactly once: the
dispatcher's unlock runs on the first trigger only, `audioUnlocked` is set,
and no later trigger re-invokes resume.  (When the first attempt fails, the
self-healing path in `playSound` may re-invoke resume on every trigger, as
the counterexample shows.) -/
theorem c2_resume_once_on_success (d : DispatcherState) (w : World) (z : Zone)
    (vol : ℚ) (n : ℕ)
    (he : d.enabled = true) (ha : d.audioUnlocked = false)
    (hu : w.am.isContextUnlocked = false) (hc : w.am.ctxState = CtxState.suspended)
    (hp : w.am.unlockPromisePending = false)
    (hs : w.resumeScript w.nResume = some CtxState.running)
    (hb : w.am.audioBuffers.contains z.soundFile = true)
    (hl : w.am.loadedSounds.contains z.soundFile = true) :
    (runTriggers d w z vol (n + 1)).trace.count Action.resumeCall = 1 := by
  have hrun := unlock_run w true hu hc hp
  have hpres := unlock_preserves w true
  have hfields := settle_running_fields { w.am with unlockPromisePending := true }
  have hw1u : (unlockAudioContext w true).w.am.isContextUnlocked = true := by
    rw [hrun, hs]; exact hfields.1
  have hw1c : (unlockAudioContext w true).w.am.ctxState = CtxState.running := by
    rw [hrun, hs]; exact hfields.2.1
  have hw1b : (unlockAudioContext w true).w.am.audioBuffers.contains z.soundFile
      = true := by
    rw [hpres.1]; exact hb
  have hw1l : (unlockAudioContext w true).w.am.loadedSounds.contains z.soundFile
      = true := by
    rw [hpres.2.1]; exact hl
  have hstep : handlePointerDownOnZone d w z vol =
      ⟨{ d with audioUnlocked := true }, (unlockAudioContext w true).w,
        (unlockAudioContext w true).trace ++
          [Action.visualFlash z.id, Action.soundStart ⟨z.soundFile, none⟩]⟩ := by
    unfold handlePointerDownOnZone
    simp [he, ha,
      triggerZone_steady (unlockAudioContext w true).w z (some vol) hw1b hw1l hw1u hw1c]
  have hcount : (unlockAudioContext w true).trace.count Action.resumeCall = 1 := by
    rw [hrun, hs]
    simp [List.count_append, count_resume_settle]
  have hrest := runTriggers_steady_count { d with audioUnlocked := true }
    (unlockAudioContext w true).w z vol n rfl hw1b hw1l hw1u hw1c he
  simp only [runTriggers, hstep]
  simp [List.count_append, hcount, hrest, count_resume_flash_start]

/-- Witness for C2 (amended): two triggers under a first-time successful
resume invoke resume exactly once. -/
theorem c2_resume_once_on_success_witness :
    (runTriggers freshDispatcher lockedWorldRun kickCenterZone 1 (1 + 1)).trace.count
        Action.resumeCall = 1 :=
  c2_resume_once_on_success freshDispatcher lockedWorldRun kickCenterZone 1 1
    rfl rfl rfl rfl rfl rfl (by decide) (by decide)

/-- C3 (counterexample): for a pointer press on the loaded `kick-center`
zone with the context suspended and not yet unlocked, both the resume call
and the visual flash occur, but the flash does not precede the unlock
attempt: the dispatcher awaits the unlock first and `_triggerZone` only
flashes afterwards. -/
theorem c3_flash_first_counterexample :
    Action.resumeCall ∈
        (handlePointerDownOnZone freshDispatcher lockedWorldRun kickCenterZone 1).trace ∧
    Action.visualFlash "kick-center" ∈
        (handlePointerDownOnZone freshDispatcher lockedWorldRun kickCenterZone 1).trace ∧
    ¬ ((handlePointerDownOnZone freshDispatcher lockedWorldRun
            kickCenterZone 1).trace.indexOf (Action.visualFlash "kick-center") <
        (handlePointerDownOnZone freshDispatcher lockedWorldRun
            kickCenterZone 1).trace.indexOf Action.resumeCall) := by
  decide

/-- C3 (amended): for a pointer-down gesture on a valid zone while the
context is suspended and not yet unlocked, the order of operations is
unlock-attempt first, then the visual flash, then the playback attempt: the
trace splits as the unlock routine's operations (containing the resume call
and no playback start), then the flash, then the playback operations
(containing no flash), so the trigger proceeds only after the unlock has
settled, success or failure. -/
theorem c3_unlock_then_flash_then_play (d : DispatcherState) (w : World) (z : Zone)
    (vol : ℚ)
    (he : d.enabled = true) (ha : d.audioUnlocked = false)
    (hu : w.am.isContextUnlocked = false) (hc : w.am.ctxState = CtxState.suspended)
    (hp : w.am.unlockPromisePending = false) :
    ∃ u p, (handlePointerDownOnZone d w z vol).trace =
        u ++ Action.visualFlash z.id :: p ∧
      Action.resumeCall ∈ u ∧
      (∀ a ∈ u, ∀ unit, a ≠ Action.soundStart unit) ∧
      (∀ a ∈ p, ∀ zid, a ≠ Action.visualFlash zid) := by
  refine ⟨(unlockAudioContext w true).trace,
    (playSound (unlockAudioContext w true).w z.soundFile).trace, ?_, ?_, ?_, ?_⟩
  · unfold handlePointerDownOnZone triggerZone
    simp [he, ha]
  · rw [unlock_run w true hu hc hp]
    simp
  · intro a hau unit
    rcases unlockAudioContext_trace w true a hau with h | h | h <;> simp [h]
  · exact playSound_trace_no_flash _ _

/-- Witness for C3 (amended) at the demo fixture. -/
theorem c3_unlock_then_flash_then_play_witness :
    ∃ u p, (handlePointerDownOnZone freshDispatcher lockedWorldRun
        kickCenterZone 1).trace = u ++ Action.visualFlash kickCenterZone.id :: p ∧
      Action.resumeCall ∈ u ∧
      (∀ a ∈ u, ∀ unit, a ≠ Action.soundStart unit) ∧
      (∀ a ∈ p, ∀ zid, a ≠ Action.visualFlash zid) :=
  c3_unlock_then_flash_then_play freshDispatcher lockedWorldRun kickCenterZone 1
    rfl rfl rfl rfl rfl

/-- C6: triggering a zone whose asset has no decoded buffer fails fast with a
sound-not-found rejection every time, with the state left exactly unchanged;
`_triggerZone` swallows the rejection (its result type has no error channel),
still fires the visual flash, and a subsequent trigger of a different, loaded
zone on the healthy context starts its playback unit normally. -/
theorem c6_failed_trigger_isolated (w : World) (zf zh : Zone) (vol : Option ℚ)
    (hf : w.am.audioBuffers.contains zf.soundFile = false)
    (hb : w.am.audioBuffers.contains zh.soundFile = true)
    (hl : w.am.loadedSounds.contains zh.soundFile = true)
    (hu : w.am.isContextUnlocked = true)
    (hc : w.am.ctxState = CtxState.running) :
    (∃ e, playSound w zf.soundFile = ⟨w, [], Except.error e⟩) ∧
    triggerZone w zf vol = (w, [Action.visualFlash zf.id]) ∧
    (triggerZone ((triggerZone w zf vol).1) zh vol).2 =
      [Action.visualFlash zh.id, Action.soundStart ⟨zh.soundFile, none⟩] := by
  have hf' : zf.soundFile ∉ w.am.audioBuffers := by simpa using hf
  have hplay : playSound w zf.soundFile =
      ⟨w, [], Except.error ("Sound file not found: " ++ zf.soundFile)⟩ := by
    unfold playSound
    simp [hf']
  have htrig : triggerZone w zf vol = (w, [Action.visualFlash zf.id]) := by
    unfold triggerZone
    rw [hplay]
  refine ⟨⟨_, hplay⟩, htrig, ?_⟩
  rw [htrig]
  rw [triggerZone_steady w zh vol hb hl hu hc]

/-- Witness for C6 at the demo fixture: the broken zone fails and leaves the
world untouched, then `kick-center` plays. -/
theorem c6_failed_trigger_isolated_witness :
    (∃ e, playSound readyWorld brokenZone.soundFile =
      ⟨readyWorld, [], Except.error e⟩) ∧
    triggerZone readyWorld brokenZone none =
      (readyWorld, [Action.visualFlash "broken"]) ∧
    (triggerZone ((triggerZone readyWorld brokenZone none).1) kickCenterZone none).2 =
      [Action.visualFlash "kick-center",
        Action.soundStart ⟨"src/assets/sounds/cajon-off-kick-4.mp3", none⟩] :=
  c6_failed_trigger_isolated readyWorld brokenZone kickCenterZone none (by decide)
    (by decide) (by decide) (by decide) (by decide)

lemma overlapEntries_inflight (am : AMState) (gs : List Bool)
    (h1 : am.isContextUnlocked = false) (h2 : am.ctxState = CtxState.suspended)
    (h3 : am.unlockPromisePending = true) :
    (overlapUnlockEntries am gs).1 = am ∧
    (overlapUnlockEntries am gs).2.1.count Action.resumeCall = 0 := by
  induction gs with
  | nil => simp [overlapUnlockEntries]
  | cons g gs ih =>
      have hE : unlockAudioContextEntry am g =
          (am, if g then [Action.primeStart] else [], UnlockEntryResult.awaiting) := by
        unfold unlockAudioContextEntry
        simp [h1, h2, h3]
      simp only [overlapUnlockEntries, hE]
      cases g <;> simp [List.count_append, ih.1, ih.2]

lemma overlapSettles_no_resume (am : AMState) (o : Option CtxState) (n : ℕ) :
    (overlapUnlockSettles am o n).2.count Action.resumeCall = 0 := by
  induction n generalizing am with
  | zero => simp [overlapUnlockSettles]
  | succ k ih =>
      unfold overlapUnlockSettles
      simp [List.count_append, ih, count_resume_settle]

/-- C7: the unlock routine is idempotent and single-flight.  A call to
`unlockAudioContext` on an already-unlocked context returns immediately with
no observable operation (in particular no resume); and any nonempty batch of
overlapping unlock calls issued while the context is suspended with no resume
in flight issues exactly one resume in total — later entries observe the
pending `_unlockPromise` and join it rather than issuing their own, and the
settlement continuations never issue one. -/
theorem c7_unlock_idempotent_single_flight (am : AMState) (g : Bool) (gs : List Bool)
    (outcome : Option CtxState) :
    (am.isContextUnlocked = true →
      unlockAudioContextEntry am g =
        (am, [], UnlockEntryResult.returned (Except.ok ()))) ∧
    (am.isContextUnlocked = false → am.ctxState = CtxState.suspended →
      am.unlockPromisePending = false → gs ≠ [] →
      (overlappedUnlocks am gs outcome).2.count Action.resumeCall = 1) := by
  constructor
  · intro h
    unfold unlockAudioContextEntry
    simp [h]
  · intro h1 h2 h3 hne
    cases gs with
    | nil => exact absurd rfl hne
    | cons g0 gs' =>
        have hE := unlockAudioContextEntry_issue am g0 h1 h2 h3
        have hin := overlapEntries_inflight { am with unlockPromisePending := true } gs'
          h1 h2 rfl
        unfold overlappedUnlocks
        simp only [overlapUnlockEntries, hE]
        cases g0 <;>
          simp [List.count_append, hin.1, hin.2, overlapSettles_no_resume]

/-- Witness for C7: an unlocked manager returns immediately, and three
overlapping calls on the locked manager issue one resume. -/
theorem c7_unlock_idempotent_single_flight_witness :
    unlockAudioContextEntry readyAM true =
      (readyAM, [], UnlockEntryResult.returned (Except.ok ())) ∧
    (overlappedUnlocks lockedAM [true, false, true]
        (some CtxState.running)).2.count Action.resumeCall = 1 :=
  ⟨(c7_unlock_idempotent_single_flight readyAM true [] none).1 rfl,
   (c7_unlock_idempotent_single_flight lockedAM true [true, false, true]
      (some CtxState.running)).2 rfl rfl rfl (by decide)⟩

lemma preload_fold_progress (ok : String → Bool) (l : List String) (w0 : World)
    (a0 : List Action) :
    ((l.foldl (fun (acc : World × List Action) p =>
        let (w1, acts) := loadSound acc.1 (ok p) p
        (w1, acc.2 ++ acts)) (w0, a0)).2.countP isProgressSignal) =
      a0.countP isProgressSignal + (l.filter ok).length := by
  induction l generalizing w0 a0 with
  | nil => simp
  | cons p l ih =>
      simp only [List.foldl_cons]
      rw [ih]
      by_cases hp : ok p = true
      · simp [loadSound, hp, List.countP_append, isProgressSignal]
        omega
      · simp [loadSound, hp, List.countP_append, isProgressSignal]

/-- C4 (counterexample): over the two demo paths with the first succeeding
and the second failing, `preloadAll` emits exactly one progress signal, not
two: `_loadSound` emits `progress` only on the success path, a failed path
emits only `error`. -/
theorem c4_progress_counterexample :
    ((preloadAll ⟨mkAudioManager demoSounds CtxState.suspended, alwaysFail, 0⟩
        (fun p => p == kickCenterZone.soundFile)).2.countP isProgressSignal = 1) ∧
    demoSounds.length = 2 := by
  constructor
  · decide
  · decide

/-- C4 (amended): `preloadAll` emits `loading` first and the completion
signal last, and a progress signal fires after each successful load only:
over any path list, the number of progress signals equals the number of
successfully settled paths (each emitted before the final completion
signal), so with N paths of which one fails, N − 1 progress signals fire. -/
theorem c4_progress_per_success (w : World) (ok : String → Bool) :
    ∃ body, (preloadAll w ok).2 = Action.emitLoading :: body ++ [Action.emitLoaded] ∧
      body.countP isProgressSignal = (w.am.sounds.filter ok).length :=
  ⟨_, rfl, by simpa using preload_fold_progress ok w.am.sounds w []⟩

lemma assocGet_eq_none (l : List (String × Zone)) (k : String)
    (h : ∀ kv ∈ l, kv.1 ≠ k) : assocGet l k = none := by
  induction l with
  | nil => rfl
  | cons kv rest ih =>
      obtain ⟨k1, v⟩ := kv
      have hk : k1 ≠ k := h (k1, v) (by simp)
      simp only [assocGet, if_neg hk]
      exact ih fun kv hkv => h kv (by simp [hkv])

lemma assocGet_append_of_none (l1 l2 : List (String × Zone)) (k : String)
    (h : assocGet l1 k = none) : assocGet (l1 ++ l2) k = assocGet l2 k := by
  induction l1 with
  | nil => rfl
  | cons kv rest ih =>
      obtain ⟨k1, v⟩ := kv
      by_cases hk : k1 = k
      · simp only [assocGet, if_pos hk] at h
        exact absurd h (by simp)
      · simp only [assocGet, List.cons_append, if_neg hk] at h ⊢
        exact ih h

lemma assocGet_unique_of_nodup (l : List (String × Zone))
    (hn : (l.map Prod.fst).Nodup) (k : String) (z : Zone)
    (h : assocGet l k = some z) :
    ∀ kv ∈ l, kv.1 = k → kv.2 = z := by
  induction l with
  | nil => simp
  | cons kv0 rest ih =>
      obtain ⟨k1, v⟩ := kv0
      simp only [List.map_cons, List.nodup_cons] at hn
      intro kv hkv hkey
      by_cases hk : k1 = k
      · simp only [assocGet, if_pos hk] at h
        rcases List.mem_cons.mp hkv with hkv0 | hkvr
        · rw [hkv0]
          simpa using h
        · exfalso
          apply hn.1
          rw [hk, ← hkey]
          exact List.mem_map_of_mem Prod.fst hkvr
      · simp only [assocGet, if_neg hk] at h
        rcases List.mem_cons.mp hkv with hkv0 | hkvr
        · exfalso
          apply hk
          rw [hkv0] at hkey
          exact hkey
        · exact ih hn.2 h kv hkvr hkey

/-- C5: after the spec-modelled `updateZoneKey(zoneId, newKey)` (the
operation the key-recording flow invokes), resolving the new key returns the
rebound zone, and the zone's previous key — not bound to any other zone,
since the `Map`'s keys are unique — resolves to nothing: the rebind removes
the zone's old binding from the key index before installing the new one. -/
theorem c5_rebind_key (zm : ZoneManagerState) (zoneId newKey : String) (z : Zone)
    (hfind : zm.zones.find? (fun z0 => z0.id = zoneId) = some z)
    (hn : (zm.zoneByKey.map Prod.fst).Nodup) :
    getZoneByKey (updateZoneKey zm zoneId newKey) newKey = some z ∧
    ∀ oldKey zOld, getZoneByKey zm oldKey = some zOld → zOld.id = zoneId →
      toLowerStr oldKey ≠ toLowerStr newKey →
      getZoneByKey (updateZoneKey zm zoneId newKey) oldKey = none := by
  have hupd : updateZoneKey zm zoneId newKey =
      { zm with
        zoneByKey :=
          ((zm.zoneByKey.filter (fun kv => kv.2.id ≠ zoneId)).filter
              (fun kv => kv.1 ≠ toLowerStr newKey)) ++ [(toLowerStr newKey, z)] } := by
    unfold updateZoneKey
    rw [hfind]
  constructor
  · rw [hupd]
    unfold getZoneByKey
    have hnone : assocGet
        ((zm.zoneByKey.filter (fun kv => kv.2.id ≠ zoneId)).filter
          (fun kv => kv.1 ≠ toLowerStr newKey)) (toLowerStr newKey) = none := by
      apply assocGet_eq_none
      intro kv hkv
      have := (List.mem_filter.mp hkv).2
      simpa using this
    rw [assocGet_append_of_none _ _ _ hnone]
    simp [assocGet]
  · intro oldKey zOld hold hid hne
    rw [hupd]
    unfold getZoneByKey at hold ⊢
    have hall := assocGet_unique_of_nodup zm.zoneByKey hn (toLowerStr oldKey) zOld hold
    have hnone1 : assocGet
        ((zm.zoneByKey.filter (fun kv => kv.2.id ≠ zoneId)).filter
          (fun kv => kv.1 ≠ toLowerStr newKey)) (toLowerStr oldKey) = none := by
      apply assocGet_eq_none
      intro kv hkv hkey
      have hkv1 := List.mem_filter.mp hkv
      have hkv2 := List.mem_filter.mp hkv1.1
      have hzeq : kv.2 = zOld := hall kv hkv2.1 hkey
      have : kv.2.id ≠ zoneId := by simpa using hkv2.2
      rw [hzeq, hid] at this
      exact this rfl
    rw [assocGet_append_of_none _ _ _ hnone1]
    simp [assocGet, Ne.symm hne]

/-- Witness for C5 at the demo registry: rebinding `kick-center` from `q` to
`p` makes `p` resolve to it and `q` resolve to nothing. -/
theorem c5_rebind_key_witness :
    getZoneByKey (updateZoneKey demoZM "kick-center" "p") "p" = some kickCenterZone ∧
    getZoneByKey (updateZoneKey demoZM "kick-center" "p") "q" = none :=
  ⟨(c5_rebind_key demoZM "kick-center" "p" kickCenterZone (by decide) (by decide)).1,
   (c5_rebind_key demoZM "kick-center" "p" kickCenterZone (by decide) (by decide)).2
      "q" kickCenterZone (by decide) rfl (by decide)⟩

/-- C9: with the dispatcher enabled and focused, a keydown whose ctrl, alt or
meta modifier flag is set resolves to no zone (ignored) unless the pressed
key is itself a physical Shift key; a `ShiftLeft` (resp. `ShiftRight`) press
is resolved as the primary key `leftshift` (resp. `rightshift`) through the
registry's key index, identified by `event.code`, not the modifier flag. -/
theorem c9_modifier_gating (zm : ZoneManagerState) (ev : KeyEvent) :
    ((ev.ctrlKey = true ∨ ev.altKey = true ∨ ev.metaKey = true) →
      ev.code ≠ "ShiftLeft" → ev.code ≠ "ShiftRight" →
      handleKeydownResolve true true zm ev = none) ∧
    (ev.code = "ShiftLeft" →
      handleKeydownResolve true true zm ev = getZoneByKey zm "leftshift") ∧
    (ev.code = "ShiftRight" →
      handleKeydownResolve true true zm ev = getZoneByKey zm "rightshift") := by
  refine ⟨?_, ?_, ?_⟩
  · intro h hsl hsr
    rcases h with h | h | h <;> simp [handleKeydownResolve, h, hsl, hsr]
  · intro h
    simp [handleKeydownResolve, h]
  · intro h
    have : ev.code ≠ "ShiftLeft" := by
      rw [h]; decide
    simp [handleKeydownResolve, h, this]

lemma maxDist_ne (rW rH : ℝ) (h : ¬ (rW = 0 ∧ rH = 0)) :
    Real.sqrt (rW / 2 * (rW / 2) + rH / 2 * (rH / 2)) ≠ 0 := by
  have hpos : 0 < rW / 2 * (rW / 2) + rH / 2 * (rH / 2) := by
    rcases not_and_or.mp h with hw | hh
    · have h1 : 0 < rW / 2 * (rW / 2) :=
        mul_self_pos.mpr (div_ne_zero hw two_ne_zero)
      nlinarith [mul_self_nonneg (rH / 2)]
    · have h1 : 0 < rH / 2 * (rH / 2) :=
        mul_self_pos.mpr (div_ne_zero hh two_ne_zero)
      nlinarith [mul_self_nonneg (rW / 2)]
  exact (Real.sqrt_pos.mpr hpos).ne'

/-- C8: the position-based volume at a press inside a zone's bounding
rectangle is `baseVolume × (1 − normalizedDistance)` with
`normalizedDistance = min(distanceToCenter / distanceCenterToCorner, 1)`: a
press at the exact center of a non-degenerate rectangle yields the base
volume (multiplier 1), a press at the rectangle's corner yields 0
(multiplier 0), and for any press with nonnegative base volume the result
lies in `[0, baseVolume]`. -/
theorem c8_volume_mapping (cx cy rL rT rW rH b : ℝ) :
    (¬ (rW = 0 ∧ rH = 0) →
      calculateVolumeFromClickPosition (rL + rW / 2) (rT + rH / 2) rL rT rW rH
        (some b) = b) ∧
    (¬ (rW = 0 ∧ rH = 0) →
      calculateVolumeFromClickPosition rL rT rL rT rW rH (some b) = 0) ∧
    (0 ≤ b →
      0 ≤ calculateVolumeFromClickPosition cx cy rL rT rW rH (some b) ∧
      calculateVolumeFromClickPosition cx cy rL rT rW rH (some b) ≤ b) := by
  refine ⟨?_, ?_, ?_⟩
  · intro h
    have hm := maxDist_ne rW rH h
    simp only [calculateVolumeFromClickPosition]
    rw [if_neg hm]
    rw [show (rL + rW / 2 - rL - rW / 2 : ℝ) = 0 from by ring,
      show (rT + rH / 2 - rT - rH / 2 : ℝ) = 0 from by ring]
    norm_num [Real.sqrt_zero]
  · intro h
    have hm := maxDist_ne rW rH h
    simp only [calculateVolumeFromClickPosition]
    rw [if_neg hm]
    rw [show (rL - rL - rW / 2 : ℝ) = -(rW / 2) from by ring,
      show (rT - rT - rH / 2 : ℝ) = -(rH / 2) from by ring,
      show (-(rW / 2) * -(rW / 2) + -(rH / 2) * -(rH / 2) : ℝ) =
        rW / 2 * (rW / 2) + rH / 2 * (rH / 2) from by ring]
    rw [div_self hm]
    norm_num
  · intro hb
    simp only [calculateVolumeFromClickPosition]
    by_cases hm : Real.sqrt (rW / 2 * (rW / 2) + rH / 2 * (rH / 2)) = 0
    · rw [if_pos hm]
      simp only [Option.getD_some]
      exact ⟨hb, le_refl b⟩
    · rw [if_neg hm]
      simp only [Option.getD_some]
      have hd : 0 ≤ Real.sqrt
          ((cx - rL - rW / 2) * (cx - rL - rW / 2) +
            (cy - rT - rH / 2) * (cy - rT - rH / 2)) :=
        Real.sqrt_nonneg _
      have hm0 : 0 ≤ Real.sqrt (rW / 2 * (rW / 2) + rH / 2 * (rH / 2)) :=
        Real.sqrt_nonneg _
      have hmin0 : 0 ≤ min (Real.sqrt
          ((cx - rL - rW / 2) * (cx - rL - rW / 2) +
            (cy - rT - rH / 2) * (cy - rT - rH / 2)) /
          Real.sqrt (rW / 2 * (rW / 2) + rH / 2 * (rH / 2))) 1 :=
        le_min (div_nonneg hd hm0) zero_le_one
      have hmin1 : min (Real.sqrt
          ((cx - rL - rW / 2) * (cx - rL - rW / 2) +
            (cy - rT - rH / 2) * (cy - rT - rH / 2)) /
          Real.sqrt (rW / 2 * (rW / 2) + rH / 2 * (rH / 2))) 1 ≤ 1 :=
        min_le_right _ _
      constructor
      · apply mul_nonneg _ hb
        linarith
      · have hv1 : (0 : ℝ) + 1 * (1 - min (Real.sqrt
            ((cx - rL - rW / 2) * (cx - rL - rW / 2) +
              (cy - rT - rH / 2) * (cy - rT - rH / 2)) /
            Real.sqrt (rW / 2 * (rW / 2) + rH / 2 * (rH / 2))) 1) ≤ 1 := by
          linarith
        calc (0 + 1 * (1 - min (Real.sqrt
              ((cx - rL - rW / 2) * (cx - rL - rW / 2) +
                (cy - rT - rH / 2) * (cy - rT - rH / 2)) /
              Real.sqrt (rW / 2 * (rW / 2) + rH / 2 * (rH / 2))) 1)) * b
            ≤ 1 * b := mul_le_mul_of_nonneg_right hv1 hb
          _ = b := one_mul b

/-- Witness for C8 on a 100 × 100 rectangle with base volume 1: center press
gives 1, corner press gives 0, an interior press lies in `[0, 1]`. -/
theorem c8_volume_mapping_witness :
    calculateVolumeFromClickPosition (0 + 100 / 2) (0 + 100 / 2) 0 0 100 100
        (some 1) = 1 ∧
    calculateVolumeFromClickPosition 0 0 0 0 100 100 (some 1) = 0 ∧
    (0 ≤ calculateVolumeFromClickPosition 30 40 0 0 100 100 (some 1) ∧
      calculateVolumeFromClickPosition 30 40 0 0 100 100 (some 1) ≤ 1) :=
  ⟨(c8_volume_mapping 30 40 0 0 100 100 1).1 (by norm_num),
   (c8_volume_mapping 30 40 0 0 100 100 1).2.1 (by norm_num),
   (c8_volume_mapping 30 40 0 0 100 100 1).2.2 (by norm_num)⟩

/-- Witness for C9: a lone left-Shift press resolves through the key index
while ctrl-A is ignored. -/
theorem c9_modifier_gating_witness :
    handleKeydownResolve true true (mkZoneManager [shiftZone])
        ⟨"Shift", "ShiftLeft", false, false, false, true⟩ =
      getZoneByKey (mkZoneManager [shiftZone]) "leftshift" ∧
    handleKeydownResolve true true (mkZoneManager [shiftZone])
        ⟨"a", "KeyA", true, false, false, false⟩ = none :=
  ⟨(c9_modifier_gating (mkZoneManager [shiftZone])
      ⟨"Shift", "ShiftLeft", false, false, false, true⟩).2.1 rfl,
   (c9_modifier_gating (mkZoneManager [shiftZone])
      ⟨"a", "KeyA", true, false, false, false⟩).1 (Or.inl rfl) (by decide) (by decide)⟩

lemma settle_running_removes (am : AMState) (hat : am.autoUnlockAttached = true) :
    (unlockAudioContextSettle am (some CtxState.running)).1.autoUnlockAttached
      = false ∧
    (unlockAudioContextSettle am (some CtxState.running)).1.gestureListeners
      = [] := by
  unfold unlockAudioContextSettle removeGestureUnlockListeners
  simp [hat]

lemma dispatch_noop (w : World) (e2 : String)
    (hu : w.am.isContextUnlocked = true) (hat : w.am.autoUnlockAttached = false) :
    dispatchWindowGesture w e2 = (w, []) := by
  unfold dispatchWindowGesture handleGestureUnlockEvent removeGestureUnlockListeners
  split
  · simp [hu, hat]
  · rfl

/-- C10: at construction the `AudioManager` attaches capture-phase window
listeners for `pointerdown`, `touchstart`, `touchend`, `mousedown` and
`keydown`; delivering any such event while the context is still locked and
suspended invokes the unlock protocol's resume call — with no zone involved
at all; and once the resume fulfils with a running context, the listeners
are detached and a subsequent window event is a complete no-op, never firing
the unlock again. -/
theorem c10_gesture_unlock_lifecycle (sounds : List String) (c : CtxState)
    (w : World) (e e2 : String) :
    ((mkAudioManager sounds c).gestureListeners =
        gestureUnlockEvents.map (fun ev => (ev, true)) ∧
      (mkAudioManager sounds c).autoUnlockAttached = true) ∧
    (w.am.isContextUnlocked = false → w.am.ctxState = CtxState.suspended →
      w.am.unlockPromisePending = false →
      w.am.gestureListeners.contains (e, true) = true →
      Action.resumeCall ∈ (dispatchWindowGesture w e).2) ∧
    (w.am.isContextUnlocked = false → w.am.ctxState = CtxState.suspended →
      w.am.unlockPromisePending = false →
      w.am.autoUnlockAttached = true →
      w.resumeScript w.nResume = some CtxState.running →
      w.am.gestureListeners.contains (e, true) = true →
      (dispatchWindowGesture w e).1.am.autoUnlockAttached = false ∧
      (dispatchWindowGesture w e).1.am.gestureListeners = [] ∧
      dispatchWindowGesture ((dispatchWindowGesture w e).1) e2 =
        ((dispatchWindowGesture w e).1, [])) := by
  refine ⟨?_, ?_, ?_⟩
  · constructor
    · simp [mkAudioManager, setupGestureUnlock]
    · simp [mkAudioManager, setupGestureUnlock]
  · intro hu hc hp hcont
    unfold dispatchWindowGesture handleGestureUnlockEvent
    simp only [hcont, if_pos, hu]
    rw [unlock_run w true hu hc hp]
    simp
  · intro hu hc hp hat hs hcont
    have hrun := unlock_run w true hu hc hp
    have h1 := settle_running_fields { w.am with unlockPromisePending := true }
    have h2 := settle_running_removes { w.am with unlockPromisePending := true } hat
    have hmem : (e, true) ∈ w.am.gestureListeners := by simpa using hcont
    have hw1 : (dispatchWindowGesture w e).1 = (unlockAudioContext w true).w := by
      unfold dispatchWindowGesture handleGestureUnlockEvent
      simp [hmem, hu]
    have hattach : (dispatchWindowGesture w e).1.am.autoUnlockAttached = false := by
      rw [hw1, hrun, hs]
      exact h2.1
    have hlist : (dispatchWindowGesture w e).1.am.gestureListeners = [] := by
      rw [hw1, hrun, hs]
      exact h2.2
    have hunlocked : (dispatchWindowGesture w e).1.am.isContextUnlocked = true := by
      rw [hw1, hrun, hs]
      exact h1.1
    exact ⟨hattach, hlist, dispatch_noop _ e2 hunlocked hattach⟩

/-- Witness for C10 at the freshly-constructed demo manager with a
succeeding resume. -/
theorem c10_gesture_unlock_lifecycle_witness :
    (mkAudioManager demoSounds CtxState.suspended).gestureListeners =
        gestureUnlockEvents.map (fun ev => (ev, true)) ∧
    Action.resumeCall ∈ (dispatchWindowGesture lockedWorldRun "pointerdown").2 ∧
    dispatchWindowGesture ((dispatchWindowGesture lockedWorldRun "pointerdown").1)
        "touchstart" =
      ((dispatchWindowGesture lockedWorldRun "pointerdown").1, []) :=
  ⟨(c10_gesture_unlock_lifecycle demoSounds CtxState.suspended lockedWorldRun
      "pointerdown" "touchstart").1.1,
   (c10_gesture_unlock_lifecycle demoSounds CtxState.suspended lockedWorldRun
      "pointerdown" "touchstart").2.1 rfl rfl rfl (by decide),
   ((c10_gesture_unlock_lifecycle demoSounds CtxState.suspended lockedWorldRun
      "pointerdown" "touchstart").2.2 rfl rfl rfl rfl rfl (by decide)).2.2⟩

end Cajon
